import Mathlib

/-!
Shallow embedding of the image-generation gateway in
image_generation_backend/main.py.  The module-level configuration
(the API key constant) is threaded through as an explicit Config
value; JSON dictionaries with a known set of possible keys are
embedded as structures of Option fields (a missing key is none).
-/

namespace ImageGen

/-- Module-level configuration: the hardcoded TOGETHER API key of main.py.
The core reads this global; the embedding passes it explicitly. -/
structure Config where
  togetherApiKey : String
deriving Repr, DecidableEq

/-- The literal key constant from main.py line 15. -/
def ACTUAL_CONFIG : Config :=
  { togetherApiKey := "ad01e67e82c42a9eaae5c7c1759b1e5efae0b7ce89b665cd049e046d0b43419e" }

/-- AVAILABLE_MODELS from main.py lines 19-25. -/
def AVAILABLE_MODELS : List String :=
  [ "black-forest-labs/FLUX.1-schnell-Free"
  , "black-forest-labs/FLUX.1-dev"
  , "stabilityai/stable-diffusion-xl-base-1.0"
  , "stabilityai/stable-diffusion-2-1"
  , "runwayml/stable-diffusion-v1-5" ]

/-- The default model, AVAILABLE_MODELS[0]. -/
def DEFAULT_MODEL : String := AVAILABLE_MODELS.headD ""

/-- The parsed JSON body of an inbound request.  Each field is an Option:
none models a missing key (main.py uses data.get with defaults). -/
structure RawRequest where
  prompt : Option String := none
  model : Option String := none
  width : Option Int := none
  height : Option Int := none
  steps : Option Int := none
  n : Option Int := none
  negative_prompt : Option String := none
  seed : Option Int := none
  guidance_scale : Option Rat := none
deriving Repr, DecidableEq

/-- Python truthiness test applied to the prompt at main.py line 55:
`if not prompt` fires for a missing key (None) and for an empty string. -/
def promptFalsy : Option String → Bool
  | none => true
  | some s => s.isEmpty

/-- The JSON payload sent upstream, main.py lines 88-111.  negative_prompt
and guidance_scale are always present (a default is inserted when the
caller omits them); seed is present only when the caller supplied it. -/
structure Payload where
  model : String
  prompt : String
  width : Int
  height : Int
  steps : Int
  n : Int
  negative_prompt : String
  guidance_scale : Rat
  seed : Option Int
deriving Repr, DecidableEq

/-- Default negative prompt inserted at main.py line 102. -/
def DEFAULT_NEGATIVE_PROMPT : String :=
  "blurry, low quality, distorted, pixelated, artifacts, bad anatomy"

/-- Default guidance scale inserted at main.py line 111 (the float 7.5). -/
def DEFAULT_GUIDANCE_SCALE : Rat := 15 / 2

/-- Python repr of a list of strings, as an f-string renders it:
single-quoted elements, comma-space separated, in square brackets. -/
def pyStrListRepr (l : List String) : String :=
  "[" ++ String.intercalate ", " (l.map (fun s => "\x27" ++ s ++ "\x27")) ++ "]"

/-- The invalid-model error message of main.py line 67, which interpolates
AVAILABLE_MODELS into the text. -/
def invalidModelMsg : String :=
  "Invalid model. Available models: " ++ pyStrListRepr AVAILABLE_MODELS

/-- Validation and payload construction: main.py lines 46-111.  Checks run
in source order (API key, prompt, model, dimensions, steps); the first
failure returns an (error message, HTTP status) pair. -/
def validateAndBuild (cfg : Config) (data : RawRequest) :
    Except (String × Nat) Payload :=
  if cfg.togetherApiKey = "" then
    .error ("Together AI API key not configured", 500)
  else if promptFalsy data.prompt then
    .error ("Prompt is required", 400)
  else
    let prompt := data.prompt.getD ""
    let model := data.model.getD DEFAULT_MODEL
    let width := data.width.getD 1024
    let height := data.height.getD 1024
    let steps := data.steps.getD 12
    let n := data.n.getD 1
    if model ∈ AVAILABLE_MODELS then
      if width < 256 ∨ width > 2048 ∨ height < 256 ∨ height > 2048 then
        .error ("Width and height must be between 256 and 2048 pixels", 400)
      else if steps < 1 ∨ steps > 12 then
        .error ("Steps must be between 1 and 12 for Together AI models", 400)
      else
        .ok { model := model, prompt := prompt, width := width,
              height := height, steps := steps, n := n,
              negative_prompt := data.negative_prompt.getD DEFAULT_NEGATIVE_PROMPT,
              guidance_scale := data.guidance_scale.getD DEFAULT_GUIDANCE_SCALE,
              seed := data.seed }
    else
      .error (invalidModelMsg, 400)

/-- One entry of the upstream data array; either key may be present. -/
structure UpstreamEntry where
  url : Option String := none
  b64_json : Option String := none
deriving Repr, DecidableEq

/-- One element of the images list built at main.py lines 137-154: a dict
holding either a url key or a b64_json key, plus the loop index. -/
structure ImageResult where
  url : Option String := none
  b64_json : Option String := none
  index : Nat
deriving Repr, DecidableEq

/-- The if/elif/else on one entry, main.py lines 139-154: url has priority,
b64_json is consulted only when url is absent, otherwise skip. -/
def processEntry (i : Nat) (e : UpstreamEntry) : Option ImageResult :=
  match e.url with
  | some u => some { url := some u, b64_json := none, index := i }
  | none =>
    match e.b64_json with
    | some b => some { url := none, b64_json := some b, index := i }
    | none => none

/-- The enumerate loop of main.py line 137, with the running counter made
explicit: append the processed entry when processEntry yields one. -/
def processFrom (i : Nat) : List UpstreamEntry → List ImageResult
  | [] => []
  | e :: rest =>
    match processEntry i e with
    | some r => r :: processFrom (i + 1) rest
    | none => processFrom (i + 1) rest

/-- Outcome of the requests.post call at main.py lines 117-122, as seen by
the surrounding try/except: a timeout exception, another transport
exception carrying a message, or an HTTP response with a status code,
a body text, and (for 200 replies) the parsed data field of the JSON
body (none when the data key is absent). -/
inductive DispatchOutcome where
  | timeout
  | transportError (msg : String)
  | http (status : Nat) (text : String) (dataField : Option (List UpstreamEntry))
deriving Repr, DecidableEq

/-- The parameters dict of the success response, main.py lines 163-170.
The source dict has exactly the six keys width, height, steps, n,
guidance_scale, negative_prompt; the seed field below models the
possible seed key of such a parameters object and the source never
writes it, so the translator always leaves it none. -/
structure RespParams where
  width : Int
  height : Int
  steps : Int
  n : Int
  guidance_scale : Rat
  negative_prompt : String
  seed : Option Int := none
deriving Repr, DecidableEq

/-- The success response body of main.py lines 158-172 (the wall-clock
timestamp field is outside the embedding). -/
structure SuccessBody where
  success : Bool
  images : List ImageResult
  prompt : String
  model : String
  parameters : RespParams
deriving Repr, DecidableEq

/-- A core return value: either an error dict or a success dict. -/
inductive CoreBody where
  | err (msg : String)
  | ok (b : SuccessBody)
deriving Repr, DecidableEq

/-- A core result is the (body, status code) pair the function returns. -/
abbrev CoreResult := CoreBody × Nat

/-- The upstream error message of main.py lines 125-127: the status code
interpolated, with the body text appended when non-empty. -/
def upstreamErrMsg (status : Nat) (text : String) : String :=
  let base := "Together AI API error: " ++ toString status
  if text = "" then base else base ++ " - " ++ text

/-- Dispatch-outcome handling and response translation, main.py lines
115-181: map the outcome of the upstream call to the outward result. -/
def dispatchAndTranslate (p : Payload) (outcome : DispatchOutcome) : CoreResult :=
  match outcome with
  | .timeout => (.err "Request timeout - image generation took too long", 408)
  | .transportError m => (.err ("Request failed: " ++ m), 500)
  | .http status text dataField =>
    if status ≠ 200 then
      (.err (upstreamErrMsg status text), status)
    else
      match dataField with
      | some entries =>
        if entries.length > 0 then
          (.ok { success := true
               , images := processFrom 0 entries
               , prompt := p.prompt
               , model := p.model
               , parameters :=
                 { width := p.width, height := p.height, steps := p.steps,
                   n := p.n, guidance_scale := p.guidance_scale,
                   negative_prompt := p.negative_prompt, seed := none } }, 200)
        else
          (.err "No images generated", 500)
      | none => (.err "No images generated", 500)

/-- The whole of _generate_image_core, main.py lines 44-181: validate and
build the payload, then (when validation passed) dispatch and translate. -/
def generateImageCore (cfg : Config) (data : RawRequest)
    (outcome : DispatchOutcome) : CoreResult :=
  match validateAndBuild cfg data with
  | .error e => (.err e.1, e.2)
  | .ok p => dispatchAndTranslate p outcome

/-- The /generate route body, main.py lines 183-196, after JSON parsing. -/
def generate_image (cfg : Config) (data : RawRequest)
    (outcome : DispatchOutcome) : CoreResult :=
  generateImageCore cfg data outcome

/-- The /generate-simple route body, main.py lines 198-220: reject a falsy
prompt, otherwise call the core on a fresh dict holding only the prompt
and the fixed defaults for model, width, height, steps and n. -/
def generate_image_simple (cfg : Config) (data : RawRequest)
    (outcome : DispatchOutcome) : CoreResult :=
  if promptFalsy data.prompt then
    (.err "Prompt is required", 400)
  else
    let enhanced : RawRequest :=
      { prompt := data.prompt
      , model := some DEFAULT_MODEL
      , width := some 1024
      , height := some 1024
      , steps := some 12
      , n := some 1 }
    generateImageCore cfg enhanced outcome

/-! Helper lemmas about the translation loop. -/

/-- A processed entry records the loop index it was processed at. -/
theorem processEntry_index (i : Nat) (e : UpstreamEntry) (r : ImageResult)
    (h : processEntry i e = some r) : r.index = i := by
  rcases e with ⟨u, b⟩
  cases u <;> cases b <;> simp only [processEntry] at h
  case none.none => exact absurd h (by simp)
  case none.some b => injection h with h2; subst h2; rfl
  case some.none u => injection h with h2; subst h2; rfl
  case some.some u b => injection h with h2; subst h2; rfl

/-- A processed entry carries exactly one encoding: a url when the source
entry had one, else its base64 data. -/
theorem processEntry_encoding (i : Nat) (e : UpstreamEntry) (r : ImageResult)
    (h : processEntry i e = some r) :
    (∃ u, r.url = some u ∧ r.b64_json = none) ∨
    (r.url = none ∧ ∃ b, r.b64_json = some b) := by
  rcases e with ⟨u, b⟩
  cases u <;> cases b <;> simp only [processEntry] at h
  case none.none => exact absurd h (by simp)
  case none.some b => injection h with h2; subst h2; right; exact ⟨rfl, b, rfl⟩
  case some.none u => injection h with h2; subst h2; left; exact ⟨u, rfl, rfl⟩
  case some.some u b => injection h with h2; subst h2; left; exact ⟨u, rfl, rfl⟩

/-- Inversion: every element of the loop output comes from processing some
entry of the input list at its own position. -/
theorem mem_processFrom (l : List UpstreamEntry) :
    ∀ (k : Nat) (r : ImageResult), r ∈ processFrom k l →
      ∃ j, ∃ hj : j < l.length, processEntry (k + j) (l.get ⟨j, hj⟩) = some r := by
  induction l with
  | nil => intro k r h; simp [processFrom] at h
  | cons e rest ih =>
    intro k r h
    simp only [processFrom] at h
    split at h
    case h_1 r0 hp =>
      rcases List.mem_cons.mp h with rfl | h2
      · exact ⟨0, by simp, by simpa using hp⟩
      · rcases ih (k + 1) r h2 with ⟨j, hj, hpe⟩
        refine ⟨j + 1, by simpa using hj, ?_⟩
        rw [List.get_cons_succ]
        rw [show k + (j + 1) = k + 1 + j by omega]
        exact hpe
    case h_2 hp =>
      rcases ih (k + 1) r h with ⟨j, hj, hpe⟩
      refine ⟨j + 1, by simpa using hj, ?_⟩
      rw [List.get_cons_succ]
      rw [show k + (j + 1) = k + 1 + j by omega]
      exact hpe

/-- Every element of the loop output has an index between the starting
counter and the end of the list. -/
theorem mem_processFrom_bounds (l : List UpstreamEntry) (k : Nat)
    (r : ImageResult) (h : r ∈ processFrom k l) :
    k ≤ r.index ∧ r.index < k + l.length := by
  rcases mem_processFrom l k r h with ⟨j, hj, hpe⟩
  have := processEntry_index _ _ _ hpe
  omega

/-- The loop output never has more elements than the input list. -/
theorem processFrom_length_le (l : List UpstreamEntry) :
    ∀ k, (processFrom k l).length ≤ l.length := by
  induction l with
  | nil => intro k; simp [processFrom]
  | cons e rest ih =>
    intro k
    simp only [processFrom]
    split
    · simpa using Nat.succ_le_succ (ih (k + 1))
    · exact Nat.le_succ_of_le (ih (k + 1))

/-- Indices in the loop output are strictly increasing. -/
theorem processFrom_pairwise (l : List UpstreamEntry) :
    ∀ k, (processFrom k l).Pairwise (fun a b => a.index < b.index) := by
  induction l with
  | nil => intro k; simp [processFrom]
  | cons e rest ih =>
    intro k
    simp only [processFrom]
    split
    case h_1 r0 hp =>
      refine List.Pairwise.cons ?_ (ih (k + 1))
      intro b hb
      have hb2 := mem_processFrom_bounds rest (k + 1) b hb
      have := processEntry_index _ _ _ hp
      omega
    case h_2 => exact ih (k + 1)

/-- When every entry lacks both a url and base64 data, the loop output is
empty. -/
theorem processFrom_skipped (l : List UpstreamEntry)
    (hall : ∀ e ∈ l, e.url = none ∧ e.b64_json = none) :
    ∀ k, processFrom k l = [] := by
  induction l with
  | nil => intro k; rfl
  | cons e rest ih =>
    intro k
    have he := hall e (List.mem_cons_self e rest)
    have hrest : ∀ e2 ∈ rest, e2.url = none ∧ e2.b64_json = none :=
      fun e2 h2 => hall e2 (List.mem_cons_of_mem e h2)
    simp only [processFrom, processEntry, he.1, he.2]
    exact ih hrest (k + 1)

/-- Filtering the loop output by one index yields exactly the processing of
the entry at that position in the input list. -/
theorem processFrom_filter (l : List UpstreamEntry) :
    ∀ (k j : Nat) (hj : j < l.length),
      (processFrom k l).filter (fun r => r.index == k + j) =
        (processEntry (k + j) (l.get ⟨j, hj⟩)).toList := by
  induction l with
  | nil => intro k j hj; simp at hj
  | cons e rest ih =>
    intro k j hj
    match j with
    | 0 =>
      have hget : (e :: rest).get ⟨0, hj⟩ = e := rfl
      simp only [Nat.add_zero, hget, processFrom]
      have htail : (processFrom (k + 1) rest).filter (fun r => r.index == k) = [] := by
        rw [List.filter_eq_nil_iff]
        intro r hr
        have := mem_processFrom_bounds rest (k + 1) r hr
        simp only [beq_iff_eq]
        omega
      split
      case h_1 r0 hp =>
        have hidx := processEntry_index _ _ _ hp
        rw [hp, List.filter_cons, if_pos (by simp [hidx]), htail]
        rfl
      case h_2 hp =>
        rw [hp, htail]
        rfl
    | j + 1 =>
      have hj2 : j < rest.length := by simpa using hj
      have ihx := ih (k + 1) j hj2
      simp only [processFrom, List.get_cons_succ]
      rw [show k + (j + 1) = k + 1 + j by omega]
      split
      case h_1 r0 hp =>
        have hidx := processEntry_index _ _ _ hp
        rw [List.filter_cons, if_neg (by simp [hidx]; omega)]
        exact ihx
      case h_2 hp => exact ihx

/-- Inversion of a passing validation: the payload fields are the defaulted
request fields, and the range checks all passed. -/
theorem validateAndBuild_ok_inv (cfg : Config) (req : RawRequest) (p : Payload)
    (hv : validateAndBuild cfg req = .ok p) :
    p.prompt = req.prompt.getD "" ∧
    p.model = req.model.getD DEFAULT_MODEL ∧
    p.width = req.width.getD 1024 ∧
    p.height = req.height.getD 1024 ∧
    p.steps = req.steps.getD 12 ∧
    p.n = req.n.getD 1 ∧
    p.negative_prompt = req.negative_prompt.getD DEFAULT_NEGATIVE_PROMPT ∧
    p.guidance_scale = req.guidance_scale.getD DEFAULT_GUIDANCE_SCALE ∧
    p.seed = req.seed ∧
    p.model ∈ AVAILABLE_MODELS ∧
    ¬(p.width < 256 ∨ p.width > 2048 ∨ p.height < 256 ∨ p.height > 2048) ∧
    ¬(p.steps < 1 ∨ p.steps > 12) := by
  unfold validateAndBuild at hv
  split at hv
  · exact absurd hv (by simp)
  split at hv
  · exact absurd hv (by simp)
  dsimp only at hv
  split at hv
  case isTrue hm =>
    split at hv
    · exact absurd hv (by simp)
    split at hv
    · exact absurd hv (by simp)
    case isFalse hd hs =>
      cases hv
      refine ⟨rfl, rfl, rfl, rfl, rfl, rfl, rfl, rfl, rfl, hm, hd, hs⟩
  · exact absurd hv (by simp)

/-! Concrete inputs used by the witness theorems. -/

/-- A configuration with a non-empty API key. -/
def cfgW : Config := { togetherApiKey := "k" }

/-- A minimal valid request. -/
def reqW : RawRequest := { prompt := some "a cat" }

/-- The payload the validator builds from reqW under cfgW. -/
def payloadW : Payload :=
  { model := DEFAULT_MODEL, prompt := "a cat", width := 1024, height := 1024,
    steps := 12, n := 1, negative_prompt := DEFAULT_NEGATIVE_PROMPT,
    guidance_scale := DEFAULT_GUIDANCE_SCALE, seed := none }

/-- A concrete upstream data array: first entry has both keys, second only
base64 data, third neither. -/
def entriesW : List UpstreamEntry :=
  [ { url := some "x", b64_json := some "y" }, { b64_json := some "y" }, {} ]

/-- C1: for each entry of the upstream data array the translator yields at
most one ImageResult, chosen by key priority (url wins even when b64_json
is also present, b64_json is used only when url is absent, an entry with
neither is skipped), and the result filtered to an entry position is
exactly that entry's translation, carrying the original zero-based
position as its index (no renumbering after skips). -/
theorem claim1_entry_priority_and_index (entries : List UpstreamEntry)
    (j : Nat) (hj : j < entries.length) :
    (∀ u, (entries.get ⟨j, hj⟩).url = some u →
      (processFrom 0 entries).filter (fun r => r.index == j) =
        [{ url := some u, b64_json := none, index := j }]) ∧
    ((entries.get ⟨j, hj⟩).url = none →
      ∀ b, (entries.get ⟨j, hj⟩).b64_json = some b →
      (processFrom 0 entries).filter (fun r => r.index == j) =
        [{ url := none, b64_json := some b, index := j }]) ∧
    ((entries.get ⟨j, hj⟩).url = none → (entries.get ⟨j, hj⟩).b64_json = none →
      (processFrom 0 entries).filter (fun r => r.index == j) = []) := by
  have hf := processFrom_filter entries 0 j hj
  rw [Nat.zero_add] at hf
  refine ⟨?_, ?_, ?_⟩
  · intro u hu
    rw [hf]
    simp only [List.get_eq_getElem] at hu
    simp [processEntry, hu]
  · intro hu b hb
    rw [hf]
    simp only [List.get_eq_getElem] at hu hb
    simp [processEntry, hu, hb]
  · intro hu hb
    rw [hf]
    simp only [List.get_eq_getElem] at hu hb
    simp [processEntry, hu, hb]

/-- Witness for C1: on entriesW, position 0 (both keys present) yields the
url result, position 1 yields the base64 result, position 2 yields
nothing. -/
theorem claim1_entry_priority_and_index_witness :
    (processFrom 0 entriesW).filter (fun r => r.index == 0) =
      [{ url := some "x", b64_json := none, index := 0 }] ∧
    (processFrom 0 entriesW).filter (fun r => r.index == 1) =
      [{ url := none, b64_json := some "y", index := 1 }] ∧
    (processFrom 0 entriesW).filter (fun r => r.index == 2) = [] :=
  ⟨(claim1_entry_priority_and_index entriesW 0 (by decide)).1 "x" rfl,
   (claim1_entry_priority_and_index entriesW 1 (by decide)).2.1 rfl "y" rfl,
   (claim1_entry_priority_and_index entriesW 2 (by decide)).2.2 rfl rfl⟩

/-- C2: on a validated request, an upstream 200 reply lacking a data key or
carrying an empty data array gives a 500 with the no-images message, while
a non-empty data array whose entries all lack both url and b64_json gives
a 200 success response with an empty images list. -/
theorem claim2_no_data_vs_all_skipped (cfg : Config) (req : RawRequest)
    (p : Payload) (hv : validateAndBuild cfg req = .ok p) (text : String) :
    (generateImageCore cfg req (.http 200 text none) =
      (.err "No images generated", 500)) ∧
    (generateImageCore cfg req (.http 200 text (some [])) =
      (.err "No images generated", 500)) ∧
    (∀ entries, entries ≠ [] →
      (∀ e ∈ entries, e.url = none ∧ e.b64_json = none) →
      generateImageCore cfg req (.http 200 text (some entries)) =
        (.ok { success := true, images := [], prompt := p.prompt,
               model := p.model,
               parameters := { width := p.width, height := p.height,
                               steps := p.steps, n := p.n,
                               guidance_scale := p.guidance_scale,
                               negative_prompt := p.negative_prompt,
                               seed := none } }, 200)) := by
  unfold generateImageCore
  rw [hv]
  refine ⟨rfl, rfl, ?_⟩
  intro entries hne hall
  have hlen : entries.length > 0 := List.length_pos.mpr hne
  have hempty := processFrom_skipped entries hall 0
  simp only [dispatchAndTranslate]
  rw [if_neg (by simp)]
  rw [if_pos hlen, hempty]

/-- Witness for C2 at the concrete request reqW. -/
theorem claim2_no_data_vs_all_skipped_witness :
    (generateImageCore cfgW reqW (.http 200 "" none) =
      (.err "No images generated", 500)) ∧
    (generateImageCore cfgW reqW (.http 200 "" (some [{}])) =
      (.ok { success := true, images := [], prompt := payloadW.prompt,
             model := payloadW.model,
             parameters := { width := payloadW.width, height := payloadW.height,
                             steps := payloadW.steps, n := payloadW.n,
                             guidance_scale := payloadW.guidance_scale,
                             negative_prompt := payloadW.negative_prompt,
                             seed := none } }, 200)) :=
  ⟨(claim2_no_data_vs_all_skipped cfgW reqW payloadW (by rfl) "").1,
   (claim2_no_data_vs_all_skipped cfgW reqW payloadW (by rfl) "").2.2
     [{}] (by decide) (by decide)⟩

/-- C3: the validator checks run in the fixed order credential, prompt,
model, and the first failure alone determines the result: an empty
credential gives the 500 configuration error regardless of the request, a
falsy prompt gives 400 with the prompt message regardless of every other
field, a prompt-passing request with a model outside the enumeration gives
400 with the invalid-model message, and that message contains every member
of the valid model set. -/
theorem claim3_check_order_short_circuit (cfg : Config) (req : RawRequest) :
    (cfg.togetherApiKey = "" →
      validateAndBuild cfg req =
        .error ("Together AI API key not configured", 500)) ∧
    (cfg.togetherApiKey ≠ "" → promptFalsy req.prompt = true →
      validateAndBuild cfg req = .error ("Prompt is required", 400)) ∧
    (cfg.togetherApiKey ≠ "" → promptFalsy req.prompt = false →
      req.model.getD DEFAULT_MODEL ∉ AVAILABLE_MODELS →
      validateAndBuild cfg req = .error (invalidModelMsg, 400)) ∧
    (∀ m ∈ AVAILABLE_MODELS, ∃ pre post, invalidModelMsg = pre ++ m ++ post) := by
  refine ⟨?_, ?_, ?_, ?_⟩
  · intro hk
    unfold validateAndBuild
    rw [if_pos hk]
  · intro hk hp
    unfold validateAndBuild
    rw [if_neg hk, if_pos hp]
  · intro hk hp hm
    unfold validateAndBuild
    rw [if_neg hk]
    rw [if_neg (by simp [hp])]
    dsimp only
    rw [if_neg hm]
  · intro m hm
    simp only [AVAILABLE_MODELS, List.mem_cons, List.not_mem_nil, or_false] at hm
    rcases hm with rfl | rfl | rfl | rfl | rfl
    · exact ⟨"Invalid model. Available models: [\x27", "\x27, \x27black-forest-labs/FLUX.1-dev\x27, \x27stabilityai/stable-diffusion-xl-base-1.0\x27, \x27stabilityai/stable-diffusion-2-1\x27, \x27runwayml/stable-diffusion-v1-5\x27]", by rfl⟩
    · exact ⟨"Invalid model. Available models: [\x27black-forest-labs/FLUX.1-schnell-Free\x27, \x27", "\x27, \x27stabilityai/stable-diffusion-xl-base-1.0\x27, \x27stabilityai/stable-diffusion-2-1\x27, \x27runwayml/stable-diffusion-v1-5\x27]", by rfl⟩
    · exact ⟨"Invalid model. Available models: [\x27black-forest-labs/FLUX.1-schnell-Free\x27, \x27black-forest-labs/FLUX.1-dev\x27, \x27", "\x27, \x27stabilityai/stable-diffusion-2-1\x27, \x27runwayml/stable-diffusion-v1-5\x27]", by rfl⟩
    · exact ⟨"Invalid model. Available models: [\x27black-forest-labs/FLUX.1-schnell-Free\x27, \x27black-forest-labs/FLUX.1-dev\x27, \x27stabilityai/stable-diffusion-xl-base-1.0\x27, \x27", "\x27, \x27runwayml/stable-diffusion-v1-5\x27]", by rfl⟩
    · exact ⟨"Invalid model. Available models: [\x27black-forest-labs/FLUX.1-schnell-Free\x27, \x27black-forest-labs/FLUX.1-dev\x27, \x27stabilityai/stable-diffusion-xl-base-1.0\x27, \x27stabilityai/stable-diffusion-2-1\x27, \x27", "\x27]", by rfl⟩

/-- Witness for C3: the three error outcomes at concrete requests, each
carrying other invalid fields that the earlier check preempts. -/
theorem claim3_check_order_short_circuit_witness :
    (validateAndBuild { togetherApiKey := "" }
        { prompt := some "a cat" } =
      .error ("Together AI API key not configured", 500)) ∧
    (validateAndBuild cfgW
        { prompt := some "", model := some "bad", width := some 9999 } =
      .error ("Prompt is required", 400)) ∧
    (validateAndBuild cfgW
        { prompt := some "a cat", model := some "bad", width := some 9999 } =
      .error (invalidModelMsg, 400)) :=
  ⟨(claim3_check_order_short_circuit { togetherApiKey := "" }
      { prompt := some "a cat" }).1 rfl,
   (claim3_check_order_short_circuit cfgW
      { prompt := some "", model := some "bad", width := some 9999 }).2.1
      (by decide) rfl,
   (claim3_check_order_short_circuit cfgW
      { prompt := some "a cat", model := some "bad", width := some 9999 }).2.2.1
      (by decide) rfl (by decide)⟩

/-- C4: whenever validation succeeds (the only path on which the upstream
dispatch is performed), the payload numeric fields are in their documented
ranges and the model is in the enumeration. -/
theorem claim4_forwarded_ranges (cfg : Config) (req : RawRequest) (p : Payload)
    (hv : validateAndBuild cfg req = .ok p) :
    256 ≤ p.width ∧ p.width ≤ 2048 ∧ 256 ≤ p.height ∧ p.height ≤ 2048 ∧
    1 ≤ p.steps ∧ p.steps ≤ 12 ∧ p.model ∈ AVAILABLE_MODELS := by
  rcases validateAndBuild_ok_inv cfg req p hv with
    ⟨-, -, -, -, -, -, -, -, -, hm, hd, hs⟩
  push_neg at hd hs
  exact ⟨by omega, by omega, by omega, by omega, by omega, by omega, hm⟩

/-- Witness for C4 at the concrete request reqW. -/
theorem claim4_forwarded_ranges_witness :
    256 ≤ payloadW.width ∧ payloadW.width ≤ 2048 ∧
    256 ≤ payloadW.height ∧ payloadW.height ≤ 2048 ∧
    1 ≤ payloadW.steps ∧ payloadW.steps ≤ 12 ∧
    payloadW.model ∈ AVAILABLE_MODELS :=
  claim4_forwarded_ranges cfgW reqW payloadW (by rfl)

/-- A request probing the accepted boundary values of every range. -/
def reqBoundary : RawRequest :=
  { prompt := some "a cat", width := some 256, height := some 2048,
    steps := some 1 }

/-- C5: once the credential, prompt and model checks pass, the request is
rejected with the dimensions message exactly when the defaulted width or
height leaves [256, 2048], and (when the dimensions pass) with the steps
message exactly when the defaulted steps leaves [1, 12]; in particular the
boundary values themselves are accepted by the respective check. -/
theorem claim5_boundary_checks (cfg : Config) (req : RawRequest)
    (hk : cfg.togetherApiKey ≠ "") (hp : promptFalsy req.prompt = false)
    (hm : req.model.getD DEFAULT_MODEL ∈ AVAILABLE_MODELS) :
    ((validateAndBuild cfg req =
        .error ("Width and height must be between 256 and 2048 pixels", 400)) ↔
      (req.width.getD 1024 < 256 ∨ req.width.getD 1024 > 2048 ∨
       req.height.getD 1024 < 256 ∨ req.height.getD 1024 > 2048)) ∧
    (256 ≤ req.width.getD 1024 → req.width.getD 1024 ≤ 2048 →
     256 ≤ req.height.getD 1024 → req.height.getD 1024 ≤ 2048 →
      ((validateAndBuild cfg req =
          .error ("Steps must be between 1 and 12 for Together AI models", 400)) ↔
        (req.steps.getD 12 < 1 ∨ req.steps.getD 12 > 12))) := by
  unfold validateAndBuild
  rw [if_neg hk, if_neg (by simp [hp])]
  dsimp only
  rw [if_pos hm]
  constructor
  · by_cases hd : (req.width.getD 1024 < 256 ∨ req.width.getD 1024 > 2048 ∨
        req.height.getD 1024 < 256 ∨ req.height.getD 1024 > 2048)
    · rw [if_pos hd]
      exact iff_of_true rfl hd
    · rw [if_neg hd]
      constructor
      · intro h
        split at h
        · injection h with h2
          injection h2 with h3 h4
          exact absurd h3 (by decide)
        · exact Except.noConfusion h
      · intro h
        exact absurd h hd
  · intro hw1 hw2 hh1 hh2
    have hd : ¬(req.width.getD 1024 < 256 ∨ req.width.getD 1024 > 2048 ∨
        req.height.getD 1024 < 256 ∨ req.height.getD 1024 > 2048) := by omega
    rw [if_neg hd]
    by_cases hs : (req.steps.getD 12 < 1 ∨ req.steps.getD 12 > 12)
    · rw [if_pos hs]
      exact iff_of_true rfl hs
    · rw [if_neg hs]
      constructor
      · intro h
        exact Except.noConfusion h
      · intro h
        exact absurd h hs

/-- Witness for C5 at the boundary request (width 256, height 2048, steps
1): neither rejection fires. -/
theorem claim5_boundary_checks_witness :
    ((validateAndBuild cfgW reqBoundary =
        .error ("Width and height must be between 256 and 2048 pixels", 400)) ↔
      (reqBoundary.width.getD 1024 < 256 ∨ reqBoundary.width.getD 1024 > 2048 ∨
       reqBoundary.height.getD 1024 < 256 ∨
       reqBoundary.height.getD 1024 > 2048)) ∧
    ((validateAndBuild cfgW reqBoundary =
        .error ("Steps must be between 1 and 12 for Together AI models", 400)) ↔
      (reqBoundary.steps.getD 12 < 1 ∨ reqBoundary.steps.getD 12 > 12)) :=
  ⟨(claim5_boundary_checks cfgW reqBoundary (by decide) (by decide)
      (by decide)).1,
   (claim5_boundary_checks cfgW reqBoundary (by decide) (by decide)
      (by decide)).2 (by decide) (by decide) (by decide) (by decide)⟩

/-- A request that supplies a seed. -/
def reqSeed42 : RawRequest := { prompt := some "a cat", seed := some 42 }

/-- The payload built from reqSeed42: the seed is forwarded upstream. -/
def payloadSeed42 : Payload :=
  { model := DEFAULT_MODEL, prompt := "a cat", width := 1024, height := 1024,
    steps := 12, n := 1, negative_prompt := DEFAULT_NEGATIVE_PROMPT,
    guidance_scale := DEFAULT_GUIDANCE_SCALE, seed := some 42 }

/-- A concrete upstream data array with one url entry. -/
def entriesUrl : List UpstreamEntry := [{ url := some "u" }]

/-- An upstream 200 reply carrying entriesUrl. -/
def outcomeUrl : DispatchOutcome := .http 200 "" (some entriesUrl)

/-- The success body the core produces for outcomeUrl on a default-valued
request with prompt a cat. -/
def sbUrl : SuccessBody :=
  { success := true,
    images := [{ url := some "u", b64_json := none, index := 0 }],
    prompt := "a cat", model := DEFAULT_MODEL,
    parameters := { width := 1024, height := 1024, steps := 12, n := 1,
                    guidance_scale := DEFAULT_GUIDANCE_SCALE,
                    negative_prompt := DEFAULT_NEGATIVE_PROMPT,
                    seed := none } }

/-- Counterexample to C6 as stated: on a request supplying seed 42 the
upstream payload carries the seed, but the parameters object of the
success response carries no seed key, so the response parameters do not
equal the parameter set actually sent upstream. -/
theorem claim6_params_echo_counterexample :
    validateAndBuild cfgW reqSeed42 = .ok payloadSeed42 ∧
    payloadSeed42.seed = some 42 ∧
    generateImageCore cfgW reqSeed42 outcomeUrl = (.ok sbUrl, 200) ∧
    sbUrl.parameters.seed = none ∧
    sbUrl.parameters.seed ≠ payloadSeed42.seed :=
  ⟨rfl, rfl, rfl, rfl, by decide⟩

/-- C6 amended: the parameters object of every success response equals the
effective (post-defaulting) parameter set sent upstream on the fields
width, height, steps, n, guidance_scale and negative_prompt, and the
response echoes the effective prompt and model; the seed is never echoed,
even when one was forwarded upstream. -/
theorem claim6_params_echo_amended (cfg : Config) (req : RawRequest)
    (p : Payload) (hv : validateAndBuild cfg req = .ok p)
    (outcome : DispatchOutcome) (sb : SuccessBody) (status : Nat)
    (hr : generateImageCore cfg req outcome = (.ok sb, status)) :
    sb.prompt = p.prompt ∧ sb.model = p.model ∧
    sb.parameters.width = p.width ∧ sb.parameters.height = p.height ∧
    sb.parameters.steps = p.steps ∧ sb.parameters.n = p.n ∧
    sb.parameters.guidance_scale = p.guidance_scale ∧
    sb.parameters.negative_prompt = p.negative_prompt ∧
    sb.parameters.seed = none := by
  unfold generateImageCore at hr
  rw [hv] at hr
  unfold dispatchAndTranslate at hr
  cases outcome with
  | timeout => exact CoreBody.noConfusion (congrArg Prod.fst hr)
  | transportError m => exact CoreBody.noConfusion (congrArg Prod.fst hr)
  | http st text dataField =>
    dsimp only at hr
    by_cases hs : st ≠ 200
    · rw [if_pos hs] at hr
      exact CoreBody.noConfusion (congrArg Prod.fst hr)
    · rw [if_neg hs] at hr
      cases dataField with
      | none => exact CoreBody.noConfusion (congrArg Prod.fst hr)
      | some entries =>
        dsimp only at hr
        by_cases hlen : entries.length > 0
        · rw [if_pos hlen] at hr
          rw [Prod.mk.injEq] at hr
          obtain ⟨h1, h2⟩ := hr
          injection h1 with h3
          subst h3
          exact ⟨rfl, rfl, rfl, rfl, rfl, rfl, rfl, rfl, rfl⟩
        · rw [if_neg hlen] at hr
          exact CoreBody.noConfusion (congrArg Prod.fst hr)

/-- Witness for the amended C6 at a concrete successful run. -/
theorem claim6_params_echo_amended_witness :
    sbUrl.prompt = payloadW.prompt ∧ sbUrl.model = payloadW.model ∧
    sbUrl.parameters.width = payloadW.width ∧
    sbUrl.parameters.height = payloadW.height ∧
    sbUrl.parameters.steps = payloadW.steps ∧
    sbUrl.parameters.n = payloadW.n ∧
    sbUrl.parameters.guidance_scale = payloadW.guidance_scale ∧
    sbUrl.parameters.negative_prompt = payloadW.negative_prompt ∧
    sbUrl.parameters.seed = none :=
  claim6_params_echo_amended cfgW reqW payloadW (by rfl) outcomeUrl sbUrl 200
    (by rfl)

/-- C7: on a validated request, a transport timeout maps to 408 with the
timeout message, any other transport failure maps to 500 with the failure
message, and an upstream non-200 reply propagates the upstream status code
with a message that carries the upstream body text appended when that text
is non-empty. -/
theorem claim7_outcome_mapping (cfg : Config) (req : RawRequest) (p : Payload)
    (hv : validateAndBuild cfg req = .ok p) :
    (generateImageCore cfg req .timeout =
      (.err "Request timeout - image generation took too long", 408)) ∧
    (∀ m, generateImageCore cfg req (.transportError m) =
      (.err ("Request failed: " ++ m), 500)) ∧
    (∀ status text dataField, status ≠ 200 →
      generateImageCore cfg req (.http status text dataField) =
        (.err (upstreamErrMsg status text), status)) ∧
    (∀ status text, text ≠ "" →
      upstreamErrMsg status text =
        ("Together AI API error: " ++ toString status ++ " - ") ++ text) := by
  unfold generateImageCore
  rw [hv]
  refine ⟨rfl, fun m => rfl, ?_, ?_⟩
  · intro status text dataField hs
    simp only [dispatchAndTranslate]
    rw [if_pos hs]
  · intro status text ht
    unfold upstreamErrMsg
    dsimp only
    rw [if_neg ht]

/-- Witness for C7 at concrete dispatch outcomes. -/
theorem claim7_outcome_mapping_witness :
    (generateImageCore cfgW reqW .timeout =
      (.err "Request timeout - image generation took too long", 408)) ∧
    (generateImageCore cfgW reqW (.transportError "boom") =
      (.err ("Request failed: " ++ "boom"), 500)) ∧
    (generateImageCore cfgW reqW (.http 503 "oops" none) =
      (.err (upstreamErrMsg 503 "oops"), 503)) ∧
    (upstreamErrMsg 503 "oops" =
      ("Together AI API error: " ++ toString 503 ++ " - ") ++ "oops") :=
  ⟨(claim7_outcome_mapping cfgW reqW payloadW (by rfl)).1,
   (claim7_outcome_mapping cfgW reqW payloadW (by rfl)).2.1 "boom",
   (claim7_outcome_mapping cfgW reqW payloadW (by rfl)).2.2.1 503 "oops" none
     (by decide),
   (claim7_outcome_mapping cfgW reqW payloadW (by rfl)).2.2.2 503 "oops"
     (by decide)⟩

/-- C8: calling the simple route with only the prompt a cat behaves, for
every configuration and every upstream behaviour, exactly like calling the
full route with the prompt plus the default model, width 1024, height
1024, steps 12 and n 1. -/
theorem claim8_simple_equals_full_defaults (cfg : Config)
    (outcome : DispatchOutcome) :
    generate_image_simple cfg { prompt := some "a cat" } outcome =
      generate_image cfg
        { prompt := some "a cat", model := some DEFAULT_MODEL,
          width := some 1024, height := some 1024,
          steps := some 12, n := some 1 } outcome := rfl

/-- C9: the payload sent upstream carries the fixed guard string as its
negative_prompt when the caller omits one and exactly the supplied value
otherwise; guidance_scale defaults to 7.5 when omitted and is passed
through otherwise; and the seed field of the payload is exactly the
caller's (present only when supplied). -/
theorem claim9_optional_param_defaults (cfg : Config) (req : RawRequest)
    (p : Payload) (hv : validateAndBuild cfg req = .ok p) :
    (req.negative_prompt = none →
      p.negative_prompt =
        "blurry, low quality, distorted, pixelated, artifacts, bad anatomy") ∧
    (∀ s, req.negative_prompt = some s → p.negative_prompt = s) ∧
    (req.guidance_scale = none → p.guidance_scale = (7.5 : Rat)) ∧
    (∀ g, req.guidance_scale = some g → p.guidance_scale = g) ∧
    p.seed = req.seed := by
  rcases validateAndBuild_ok_inv cfg req p hv with
    ⟨-, -, -, -, -, -, hnp, hgs, hseed, -, -, -⟩
  refine ⟨?_, ?_, ?_, ?_, hseed⟩
  · intro h
    rw [hnp, h]
    rfl
  · intro s h
    rw [hnp, h]
    rfl
  · intro h
    rw [hgs, h]
    norm_num [Option.getD, DEFAULT_GUIDANCE_SCALE]
  · intro g h
    rw [hgs, h]
    rfl

/-- A request supplying a custom negative prompt and a seed but no
guidance scale. -/
def reqOptional : RawRequest :=
  { prompt := some "a cat", negative_prompt := some "custom", seed := some 7 }

/-- The payload built from reqOptional. -/
def payloadOptional : Payload :=
  { model := DEFAULT_MODEL, prompt := "a cat", width := 1024, height := 1024,
    steps := 12, n := 1, negative_prompt := "custom",
    guidance_scale := DEFAULT_GUIDANCE_SCALE, seed := some 7 }

/-- Witness for C9 at reqOptional. -/
theorem claim9_optional_param_defaults_witness :
    payloadOptional.negative_prompt = "custom" ∧
    payloadOptional.guidance_scale = (7.5 : Rat) ∧
    payloadOptional.seed = reqOptional.seed :=
  ⟨(claim9_optional_param_defaults cfgW reqOptional payloadOptional
      (by rfl)).2.1 "custom" rfl,
   (claim9_optional_param_defaults cfgW reqOptional payloadOptional
      (by rfl)).2.2.1 rfl,
   (claim9_optional_param_defaults cfgW reqOptional payloadOptional
      (by rfl)).2.2.2.2⟩

/-- C10: every success response's image entries each carry exactly one
encoding (a url or base64 data, never both), their indices are strictly
increasing, and the image count never exceeds the length of the upstream
data array the reply carried. -/
theorem claim10_success_images_invariants (cfg : Config) (req : RawRequest)
    (outcome : DispatchOutcome) (sb : SuccessBody) (status : Nat)
    (hr : generateImageCore cfg req outcome = (.ok sb, status)) :
    (∀ r ∈ sb.images,
      (∃ u, r.url = some u ∧ r.b64_json = none) ∨
      (r.url = none ∧ ∃ b, r.b64_json = some b)) ∧
    sb.images.Pairwise (fun a b => a.index < b.index) ∧
    (∀ text entries, outcome = .http 200 text (some entries) →
      sb.images.length ≤ entries.length) := by
  unfold generateImageCore at hr
  cases hv : validateAndBuild cfg req with
  | error e =>
    rw [hv] at hr
    exact CoreBody.noConfusion (congrArg Prod.fst hr)
  | ok p =>
    rw [hv] at hr
    unfold dispatchAndTranslate at hr
    cases outcome with
    | timeout => exact CoreBody.noConfusion (congrArg Prod.fst hr)
    | transportError m => exact CoreBody.noConfusion (congrArg Prod.fst hr)
    | http st text dataField =>
      dsimp only at hr
      by_cases hs : st ≠ 200
      · rw [if_pos hs] at hr
        exact CoreBody.noConfusion (congrArg Prod.fst hr)
      · rw [if_neg hs] at hr
        cases dataField with
        | none => exact CoreBody.noConfusion (congrArg Prod.fst hr)
        | some entries =>
          dsimp only at hr
          by_cases hlen : entries.length > 0
          · rw [if_pos hlen] at hr
            rw [Prod.mk.injEq] at hr
            obtain ⟨h1, h2⟩ := hr
            injection h1 with h3
            subst h3
            refine ⟨?_, processFrom_pairwise entries 0, ?_⟩
            · intro r hrm
              rcases mem_processFrom entries 0 r hrm with ⟨j, hj, hpe⟩
              exact processEntry_encoding _ _ _ hpe
            · intro text2 entries2 heq
              injection heq with e1 e2 e3
              injection e3 with e4
              subst e4
              exact processFrom_length_le entries 0
          · rw [if_neg hlen] at hr
            exact CoreBody.noConfusion (congrArg Prod.fst hr)

/-- Witness for C10 at a concrete successful run. -/
theorem claim10_success_images_invariants_witness :
    sbUrl.images.Pairwise (fun a b => a.index < b.index) ∧
    sbUrl.images.length ≤ entriesUrl.length :=
  ⟨(claim10_success_images_invariants cfgW reqW outcomeUrl sbUrl 200
      (by rfl)).2.1,
   (claim10_success_images_invariants cfgW reqW outcomeUrl sbUrl 200
      (by rfl)).2.2 "" entriesUrl rfl⟩

end ImageGen
